import Mathlib

/-!
Verification of the recording-session encoder
(src/gta5-extended-video-export/encoder.cpp).

The C++ source is shallowly embedded: every member function of
`Encoder::Session` that the claims touch becomes a pure Lean function.
Calls into the external multimedia library (codec lookup, allocation,
opening files, encoding, interleaved writing) are modelled by explicit
environment records of booleans / integers that say how each external
call turns out; the control flow of the repository around those calls is
translated statement by statement.  Mutex-guarded bodies are modelled as
atomic steps (the lock serializes them), and side effects are recorded
in explicit effect traces.

The error-handling macros `RET_IF_NULL`, `RET_IF_FAILED`,
`RET_IF_FAILED_AV` and `LOG_IF_FAILED_AV` come from the repository
headers, which are not part of the provided sources.  Modelled from the
spec: a fatal check failure "is reported to the caller" and "aborts
setup without proceeding further" (the `RET_IF_*` macros log and return
the given failure code), while teardown failures "are logged only;
teardown proceeds through every remaining step regardless"
(`LOG_IF_FAILED_AV` logs and continues).
-/

namespace EVE

/-- HRESULT success code `S_OK` (0). -/
def S_OK : Int := 0

/-- HRESULT failure code `E_FAIL` (0x80004005 as a signed 32-bit value). -/
def E_FAIL : Int := -2147467259

/-- The pixel formats the source mentions, plus `AV_PIX_FMT_NONE` and one
further format standing for "any format the switch does not recognize". -/
inductive AVPixelFormat
  | AV_PIX_FMT_NONE
  | AV_PIX_FMT_ARGB
  | AV_PIX_FMT_YUV420P
  | AV_PIX_FMT_NV12
  | AV_PIX_FMT_RGBA
deriving DecidableEq, Repr

/-- A selection of libav sample formats (interleaved and one planar). -/
inductive AVSampleFormat
  | AV_SAMPLE_FMT_NONE
  | AV_SAMPLE_FMT_U8
  | AV_SAMPLE_FMT_S16
  | AV_SAMPLE_FMT_S32
  | AV_SAMPLE_FMT_FLT
  | AV_SAMPLE_FMT_S16P
deriving DecidableEq, Repr

/-- `AVRational`: numerator / denominator pair. -/
structure AVRational where
  num : Int
  den : Int
deriving DecidableEq, Repr

/-- `av_make_q(num, den)` builds the rational `{num, den}`. -/
def av_make_q (num den : Int) : AVRational := ⟨num, den⟩

/-- `const AVRational MF_TIME_BASE = { 1, 10000000 };` (encoder.cpp line 8):
Media Foundation timestamps are in 100-nanosecond ticks. -/
def MF_TIME_BASE : AVRational := ⟨1, 10000000⟩

/-- `av_rescale_rnd(a, b, c, AV_ROUND_NEAR_INF)` with exact (wide)
intermediate arithmetic: a * b / c rounded to the nearest integer with
ties away from zero.  The external library computes, for `a ≥ 0`,
`(a * b + c / 2) / c` and for `a < 0` negates the rescale of `-a`. -/
def av_rescale_rnd_near (a b c : Int) : Int :=
  if a < 0 then -((-a * b + c / 2) / c) else (a * b + c / 2) / c

/-- `av_rescale_q(a, bq, cq)`: rescale `a` from time base `bq` to time
base `cq`, i.e. `av_rescale_rnd(a, bq.num * cq.den, cq.num * bq.den)`
with round-to-nearest, ties away from zero. -/
def av_rescale_q (a : Int) (bq cq : AVRational) : Int :=
  av_rescale_rnd_near a (bq.num * cq.den) (cq.num * bq.den)

/-! ### Finish / finalize state machine (encoder.cpp lines 246-278)

`finishVideo`, `finishAudio` and the `endSession` call they make all run
under the single `mxFinish` lock, so concurrent finish calls execute in
one of the two sequential orders.  Each call is modelled as a function
from the finish-relevant state to the new state paired with the list of
teardown steps the call executed. -/

/-- The boolean session state read and written by the finish calls. -/
structure FinishState where
  isVideoFinished : Bool
  isAudioFinished : Bool
  isCapturing : Bool
  isSessionFinished : Bool
deriving DecidableEq, Repr

/-- One step of the teardown sequence in `Session::endSession`. -/
inductive TeardownStep
  | clearCapturing
  | writeTrailer
  | closeOutput
  | closeVideoCodec
  | closeAudioCodec
  | freeVideoCodecContext
  | freeAudioCodecContext
  | setSessionFinished
deriving DecidableEq, Repr

/-- The teardown sequence executed by `endSession` when both streams are
finished, in source order: clear `isCapturing`, `av_write_trailer`,
`avio_close`, `avcodec_close` on both codec contexts, `av_free` on both,
set `isSessionFinished`.  Failures of the library calls are only logged
(`LOG_IF_FAILED_AV`), so every step is always executed. -/
def teardownSeq : List TeardownStep :=
  [.clearCapturing, .writeTrailer, .closeOutput, .closeVideoCodec,
   .closeAudioCodec, .freeVideoCodecContext, .freeAudioCodecContext,
   .setSessionFinished]

/-- `Session::endSession` (lines 262-278): if both `isVideoFinished` and
`isAudioFinished` are true, run the whole teardown sequence; otherwise do
nothing.  There is no check of `isSessionFinished`. -/
def endSession (s : FinishState) : FinishState × List TeardownStep :=
  if s.isVideoFinished && s.isAudioFinished then
    ({ s with isCapturing := false, isSessionFinished := true }, teardownSeq)
  else
    (s, [])

/-- `Session::finishVideo` (lines 246-252): under `mxFinish`, set
`isVideoFinished` and call `endSession`. -/
def finishVideo (s : FinishState) : FinishState × List TeardownStep :=
  endSession { s with isVideoFinished := true }

/-- `Session::finishAudio` (lines 254-260): under `mxFinish`, set
`isAudioFinished` and call `endSession`. -/
def finishAudio (s : FinishState) : FinishState × List TeardownStep :=
  endSession { s with isAudioFinished := true }

/-- The finish-relevant state of a session that finished setup and is
capturing: neither stream finished, capturing, not session-finished. -/
def capturingState : FinishState := ⟨false, false, true, false⟩

/-! ### Video context creation (encoder.cpp lines 18-55)

External calls: `avcodec_find_encoder`, `avcodec_alloc_context3`,
`av_frame_alloc`; each may fail (return null) and the source checks each
with `RET_IF_NULL`.  The setup environment records which of them
succeed. -/

/-- Outcomes of the external calls made during video context setup. -/
structure VideoSetupEnv where
  codecFound : Bool
  ctxAllocOk : Bool
  frameAllocOk : Bool
deriving DecidableEq, Repr

/-- Result of `Session::createVideoContext`: the HRESULT, the
`isVideoContextCreated` readiness flag, and the codec-context
`time_base` field when the codec context was allocated and configured
(`none` when the call failed before assigning it). -/
structure VideoCtxResult where
  ret : Int
  isVideoContextCreated : Bool
  time_base : Option AVRational
deriving DecidableEq, Repr

/-- `Session::createVideoContext(width, height, inputPixelFormat,
fps_num, fps_den, outputPixelFormat)` (lines 18-55), under
`mxVideoContext`: look up the FFV1 encoder (`RET_IF_NULL`), allocate its
context (`RET_IF_NULL`), populate the fields — in particular
`time_base = av_make_q(fps_den, fps_num)` (line 41) — allocate the
reusable frame (`RET_IF_NULL`), then set `isVideoContextCreated` and
notify waiters. -/
def createVideoContext (env : VideoSetupEnv) (fps_num fps_den : Int) :
    VideoCtxResult :=
  if !env.codecFound then ⟨E_FAIL, false, none⟩
  else if !env.ctxAllocOk then ⟨E_FAIL, false, none⟩
  else if !env.frameAllocOk then
    ⟨E_FAIL, false, some (av_make_q fps_den fps_num)⟩
  else ⟨S_OK, true, some (av_make_q fps_den fps_num)⟩

/-! ### Audio context creation (encoder.cpp lines 57-81)

The source calls `avcodec_find_encoder(AV_CODEC_ID_PCM_S16LE)` and
`avcodec_alloc_context3` WITHOUT checking either result, then writes the
configuration fields through the returned context pointer; only the
`av_frame_alloc` result is checked with `RET_IF_NULL`.  The external
library accepts a null codec in `avcodec_alloc_context3` (it then
allocates a generic context), so a failed codec lookup does not by
itself make the allocation fail; a failed allocation, however, makes the
subsequent field writes dereference a null pointer. -/

/-- Outcomes of the external calls made during audio context setup. -/
structure AudioSetupEnv where
  codecFound : Bool
  ctxAllocOk : Bool
  frameAllocOk : Bool
deriving DecidableEq, Repr

/-- How a `createAudioContext` call ends: returning a value, or
undefined behaviour from writing through a null context pointer. -/
inductive AudioSetupOutcome
  | returned (ret : Int)
  | nullDeref
deriving DecidableEq, Repr

/-- Result of `Session::createAudioContext`: how the call ended and the
`isAudioContextCreated` readiness flag. -/
structure AudioCtxResult where
  outcome : AudioSetupOutcome
  isAudioContextCreated : Bool
deriving DecidableEq, Repr

/-- `Session::createAudioContext` (lines 57-81), under `mxAudioContext`:
`avcodec_find_encoder` result is assigned unchecked, the
`avcodec_alloc_context3` result is assigned unchecked and immediately
dereferenced by the field writes (lines 64-70), `av_frame_alloc` is the
only checked call (`RET_IF_NULL`); on reaching the end the call sets
`isAudioContextCreated` and returns `S_OK`. -/
def createAudioContext (env : AudioSetupEnv) : AudioCtxResult :=
  if !env.ctxAllocOk then ⟨.nullDeref, false⟩
  else if !env.frameAllocOk then ⟨.returned E_FAIL, false⟩
  else ⟨.returned S_OK, true⟩

/-! ### Format (container) context creation (encoder.cpp lines 83-148)

The call first polls until both `isVideoContextCreated` and
`isAudioContextCreated` hold; the model starts after that rendezvous.
Every subsequent external call is checked with `RET_IF_NULL` /
`RET_IF_FAILED_AV`, which return `E_FAIL` on failure, and the two flags
`isCapturing` and `isFormatContextCreated` are assigned only by the last
two statements before `return S_OK`. -/

/-- Outcomes of the external calls made during format context setup. -/
structure FormatEnv where
  guessFormatOk : Bool
  allocOutputOk : Bool
  fmtCtxNonNull : Bool
  newVideoStreamOk : Bool
  newAudioStreamOk : Bool
  globalHeaderFlag : Bool
  openVideoCodecOk : Bool
  openAudioCodecOk : Bool
  avioOpenOk : Bool
  pbNonNull : Bool
  writeHeaderOk : Bool
deriving DecidableEq, Repr

/-- The setup steps of `createFormatContext`, in source order.  A step
appears in the `performed` trace when the call reached (attempted) it. -/
inductive FmtStep
  | setFilename
  | guessFormat
  | allocOutputContext
  | newVideoStream
  | newAudioStream
  | setGlobalHeaderFlags
  | openVideoCodec
  | openAudioCodec
  | avioOpen
  | writeHeader
deriving DecidableEq, Repr

/-- All setup steps of `createFormatContext`, in source order. -/
def allFmtSteps : List FmtStep :=
  [.setFilename, .guessFormat, .allocOutputContext, .newVideoStream,
   .newAudioStream, .setGlobalHeaderFlags, .openVideoCodec,
   .openAudioCodec, .avioOpen, .writeHeader]

/-- Position of a step in the source order of `createFormatContext`. -/
def fmtStepIndex : FmtStep → Nat
  | .setFilename => 0
  | .guessFormat => 1
  | .allocOutputContext => 2
  | .newVideoStream => 3
  | .newAudioStream => 4
  | .setGlobalHeaderFlags => 5
  | .openVideoCodec => 6
  | .openAudioCodec => 7
  | .avioOpen => 8
  | .writeHeader => 9

/-- Whether a step of `createFormatContext` succeeds in a given
environment.  `setFilename` (a plain `strcpy_s`) and
`setGlobalHeaderFlags` (plain flag assignments) cannot fail;
`allocOutputContext` and `avioOpen` each carry two consecutive source
checks (return code and null pointer). -/
def fmtStepOk (env : FormatEnv) : FmtStep → Bool
  | .setFilename => true
  | .guessFormat => env.guessFormatOk
  | .allocOutputContext => env.allocOutputOk && env.fmtCtxNonNull
  | .newVideoStream => env.newVideoStreamOk
  | .newAudioStream => env.newAudioStreamOk
  | .setGlobalHeaderFlags => true
  | .openVideoCodec => env.openVideoCodecOk
  | .openAudioCodec => env.openAudioCodecOk
  | .avioOpen => env.avioOpenOk && env.pbNonNull
  | .writeHeader => env.writeHeaderOk

/-- All fallible steps of `createFormatContext` succeed. -/
def fmtAllOk (env : FormatEnv) : Bool :=
  env.guessFormatOk && env.allocOutputOk && env.fmtCtxNonNull &&
  env.newVideoStreamOk && env.newAudioStreamOk && env.openVideoCodecOk &&
  env.openAudioCodecOk && env.avioOpenOk && env.pbNonNull &&
  env.writeHeaderOk

/-- The control-flow core of `Session::createFormatContext`: the
HRESULT, the `isCapturing` flag, the `isFormatContextCreated` flag, and
the trace of attempted setup steps.  Stream time bases are handled by
`createFormatContext` below.  Statement by statement (lines 105-147):

`strcpy_s` of the filename; `av_guess_format` (`RET_IF_NULL`) and the
forcing of the two codec ids onto the returned format;
`avformat_alloc_output_context2` (`RET_IF_FAILED_AV` then
`RET_IF_NULL`); `avformat_new_stream` for video (`RET_IF_NULL`) and the
stream field assignments; `avformat_new_stream` for audio
(`RET_IF_NULL`) and its assignments; the conditional propagation of
`CODEC_FLAG_GLOBAL_HEADER` into both codec contexts; `avcodec_open2` on
the video then the audio codec (`RET_IF_FAILED_AV` each); `avio_open`
(`RET_IF_FAILED_AV` then `RET_IF_NULL`); `avformat_write_header`
(`RET_IF_FAILED_AV`); then `isCapturing = true`,
`isFormatContextCreated = true`, notify, `return S_OK`. -/
def createFormatContextCore (env : FormatEnv) :
    Int × Bool × Bool × List FmtStep :=
  let performed := [FmtStep.setFilename, FmtStep.guessFormat]
  if !env.guessFormatOk then (E_FAIL, false, false, performed) else
  let performed := performed ++ [FmtStep.allocOutputContext]
  if !env.allocOutputOk then (E_FAIL, false, false, performed) else
  if !env.fmtCtxNonNull then (E_FAIL, false, false, performed) else
  let performed := performed ++ [FmtStep.newVideoStream]
  if !env.newVideoStreamOk then (E_FAIL, false, false, performed) else
  let performed := performed ++ [FmtStep.newAudioStream]
  if !env.newAudioStreamOk then (E_FAIL, false, false, performed) else
  let performed :=
    if env.globalHeaderFlag then performed ++ [FmtStep.setGlobalHeaderFlags]
    else performed
  let performed := performed ++ [FmtStep.openVideoCodec]
  if !env.openVideoCodecOk then (E_FAIL, false, false, performed) else
  let performed := performed ++ [FmtStep.openAudioCodec]
  if !env.openAudioCodecOk then (E_FAIL, false, false, performed) else
  let performed := performed ++ [FmtStep.avioOpen]
  if !env.avioOpenOk then (E_FAIL, false, false, performed) else
  if !env.pbNonNull then (E_FAIL, false, false, performed) else
  let performed := performed ++ [FmtStep.writeHeader]
  if !env.writeHeaderOk then (E_FAIL, false, false, performed) else
  (S_OK, true, true, performed)

/-- Result of `Session::createFormatContext`, including the stream
descriptor time bases (assigned at lines 122 and 128 right after the
respective `avformat_new_stream` succeeds, `none` while unassigned). -/
structure FormatResult where
  ret : Int
  isCapturing : Bool
  isFormatContextCreated : Bool
  videoStreamTimeBase : Option AVRational
  audioStreamTimeBase : Option AVRational
  performed : List FmtStep
deriving DecidableEq, Repr

/-- `Session::createFormatContext(filename)` (lines 83-148), after the
rendezvous on both context-readiness flags.  `vtb` is the video codec
context field `time_base` (copied verbatim onto the video stream descriptor,
line 122) and `sampleRate` the audio codec-context `sample_rate`
(audio stream time base `av_make_q(1, sample_rate)`, line 128). -/
def createFormatContext (env : FormatEnv) (vtb : AVRational)
    (sampleRate : Int) : FormatResult :=
  let core := createFormatContextCore env
  let videoStreamReached :=
    env.guessFormatOk && env.allocOutputOk && env.fmtCtxNonNull &&
    env.newVideoStreamOk
  let audioStreamReached := videoStreamReached && env.newAudioStreamOk
  { ret := core.1
    isCapturing := core.2.1
    isFormatContextCreated := core.2.2.1
    videoStreamTimeBase := if videoStreamReached then some vtb else none
    audioStreamTimeBase :=
      if audioStreamReached then some (av_make_q 1 sampleRate) else none
    performed := core.2.2.2 }

/-! ### Video frame submission (encoder.cpp lines 150-207)

The call first polls until `isFormatContextCreated`; the model starts
after that.  External calls: `av_image_get_buffer_size` (its value is an
environment input), `av_image_fill_arrays` (checked with
`RET_IF_FAILED`, which returns `E_FAIL` on a negative result),
`avcodec_encode_video2` and `av_interleaved_write_frame` (both results
ignored by the source).  The only persistent state the call writes
before the encoder is the reusable `videoFrame` (its `pts` field), which
the model carries explicitly; the `pDataTarget` scratch buffer and the
packet are call-local and tracked in the effect trace. -/

/-- The video-path configuration fields of the session, set once by
`createVideoContext` and read by `writeVideoFrame`. -/
structure VideoCfg where
  inputPixelFormat : AVPixelFormat
  outputPixelFormat : AVPixelFormat
  videoStreamTimeBase : AVRational
deriving DecidableEq, Repr

/-- Outcomes of the external calls made during one `writeVideoFrame`
call: the value of `av_image_get_buffer_size(inputPixelFormat, width,
height, 1)`, the return value of `av_image_fill_arrays`, the return
value of `avcodec_encode_video2`, its `got_packet` output, and the
return value of `av_interleaved_write_frame`. -/
structure VideoWriteEnv where
  imageBufferSize : Int
  fillArraysResult : Int
  encodeResult : Int
  gotPacket : Bool
  writeFrameResult : Int
deriving DecidableEq, Repr

/-- The events of one `writeVideoFrame` call, in execution order. -/
inductive VEffect
  | allocTarget
  | copyToTarget
  | convertNV12
  | freeTarget
  | fillArrays
  | encodeVideo
  | writePacket
  | freePacket
deriving DecidableEq, Repr

/-- The mutable state `writeVideoFrame` leaves behind in the reusable
`videoFrame`: its presentation timestamp (`none` before any assignment). -/
structure VideoFrameState where
  framePts : Option Int
deriving DecidableEq, Repr

/-- Result of one `writeVideoFrame` call: HRESULT, the reusable frame
state after the call, and the trace of effects. -/
structure VideoWriteOut where
  ret : Int
  st : VideoFrameState
  effects : List VEffect
deriving DecidableEq, Repr

/-- Continuation of `writeVideoFrame` after the scratch buffer has been
filled (lines 183-206): `av_image_fill_arrays` under `RET_IF_FAILED`
(which on failure returns `E_FAIL` at once — without deleting
`pDataTarget`), the pts rescale (line 185), `avcodec_encode_video2`
(result ignored, only `got_packet` used), on `got_packet != 0` the
locked `av_interleaved_write_frame` (result ignored), then
`delete[] pDataTarget` and the packet release, and `return S_OK`. -/
def writeVideoFrameEncode (cfg : VideoCfg) (st : VideoFrameState)
    (env : VideoWriteEnv) (sampleTime : Int) (eff : List VEffect) :
    VideoWriteOut :=
  let eff := eff ++ [VEffect.fillArrays]
  if env.fillArraysResult < 0 then ⟨E_FAIL, st, eff⟩
  else
    let pts := av_rescale_q sampleTime MF_TIME_BASE cfg.videoStreamTimeBase
    let eff := eff ++ [VEffect.encodeVideo]
    let eff := if env.gotPacket then eff ++ [VEffect.writePacket] else eff
    ⟨S_OK, ⟨some pts⟩, eff ++ [VEffect.freeTarget, VEffect.freePacket]⟩

/-- `Session::writeVideoFrame(pData, length, sampleTime)` (lines
150-207), after the rendezvous on `isFormatContextCreated`: compare
`length` against `av_image_get_buffer_size` and return `E_FAIL` on
mismatch before anything else; allocate `pDataTarget`; switch on the
input pixel format (`AV_PIX_FMT_ARGB` and `AV_PIX_FMT_YUV420P`:
`memcpy_s`; `AV_PIX_FMT_NV12`: `convertNV12toYUV420P`; default:
`delete[] pDataTarget` and return `E_FAIL`); then continue with
`writeVideoFrameEncode`. -/
def writeVideoFrame (cfg : VideoCfg) (st : VideoFrameState)
    (env : VideoWriteEnv) (length sampleTime : Int) : VideoWriteOut :=
  if length ≠ env.imageBufferSize then ⟨E_FAIL, st, []⟩
  else
    match cfg.inputPixelFormat with
    | .AV_PIX_FMT_ARGB =>
        writeVideoFrameEncode cfg st env sampleTime
          [VEffect.allocTarget, VEffect.copyToTarget]
    | .AV_PIX_FMT_YUV420P =>
        writeVideoFrameEncode cfg st env sampleTime
          [VEffect.allocTarget, VEffect.copyToTarget]
    | .AV_PIX_FMT_NV12 =>
        writeVideoFrameEncode cfg st env sampleTime
          [VEffect.allocTarget, VEffect.convertNV12]
    | _ => ⟨E_FAIL, st, [VEffect.allocTarget, VEffect.freeTarget]⟩

/-- The input pixel formats the `switch` in `writeVideoFrame`
recognizes. -/
def recognizedInputFormat : AVPixelFormat → Bool
  | .AV_PIX_FMT_ARGB => true
  | .AV_PIX_FMT_YUV420P => true
  | .AV_PIX_FMT_NV12 => true
  | _ => false

/-! ### Audio frame submission (encoder.cpp lines 209-244)

`writeAudioFrame` derives `numSamples = length /
av_samples_get_buffer_size(NULL, channels, 1, sample_fmt,
audioBlockAlign)` with no check of the divisor, then fills the reusable
audio frame (`avcodec_fill_audio_frame`, result ignored), leaves
`pts = AV_NOPTS_VALUE`, encodes (result ignored) and, on `got_packet`,
writes the packet under the write lock (result ignored), and returns
`S_OK` unconditionally. -/

/-- `av_get_bytes_per_sample`: bytes per sample of a sample format, `0`
for an invalid/unknown format.  Modelled from the documented
external-library contract (the library itself is an out-of-scope
collaborator). -/
def av_get_bytes_per_sample : AVSampleFormat → Int
  | .AV_SAMPLE_FMT_NONE => 0
  | .AV_SAMPLE_FMT_U8 => 1
  | .AV_SAMPLE_FMT_S16 => 2
  | .AV_SAMPLE_FMT_S32 => 4
  | .AV_SAMPLE_FMT_FLT => 4
  | .AV_SAMPLE_FMT_S16P => 2

/-- Whether a sample format is planar. -/
def av_sample_fmt_is_planar : AVSampleFormat → Bool
  | .AV_SAMPLE_FMT_S16P => true
  | _ => false

/-- `AVERROR(EINVAL)`: the negative error code the external library
returns for invalid parameters. -/
def AVERROR_EINVAL : Int := -22

/-- Round `x` up to a multiple of `a` (the library routine `FFALIGN` for the
power-of-two alignments it is used with). -/
def FFALIGN (x a : Int) : Int := ((x + a - 1) / a) * a

/-- `av_samples_get_buffer_size(NULL, nb_channels, nb_samples,
sample_fmt, align)`: modelled from the documented external-library
contract — `AVERROR(EINVAL)` (a negative error code, never zero) when
the sample format has no defined size or the channel or sample count is
not positive, otherwise the positive aligned buffer size (alignment `0`
selects the default alignment). -/
def av_samples_get_buffer_size (nb_channels nb_samples : Int)
    (sample_fmt : AVSampleFormat) (align : Int) : Int :=
  let sample_size := av_get_bytes_per_sample sample_fmt
  if sample_size = 0 ∨ nb_samples ≤ 0 ∨ nb_channels ≤ 0 then AVERROR_EINVAL
  else
    let align := if align = 0 then 32 else align
    if av_sample_fmt_is_planar sample_fmt then
      FFALIGN (nb_samples * sample_size) align * nb_channels
    else
      FFALIGN (nb_samples * sample_size * nb_channels) align

/-- The audio-path configuration fields of the session, set once by
`createAudioContext` and read by `writeAudioFrame`. -/
structure AudioCfg where
  channels : Int
  sample_fmt : AVSampleFormat
  audioBlockAlign : Int
deriving DecidableEq, Repr

/-- Outcomes of the external calls made during one `writeAudioFrame`
call. -/
structure AudioWriteEnv where
  fillAudioFrameResult : Int
  encodeResult : Int
  gotPacket : Bool
  writeFrameResult : Int
deriving DecidableEq, Repr

/-- The events of one `writeAudioFrame` call, in execution order.  The
`divide` event records the executed division with its dividend and
divisor. -/
inductive AEffect
  | divide (dividend divisor : Int)
  | fillAudioFrame
  | encodeAudio
  | writePacket
  | freePacket
deriving DecidableEq, Repr

/-- Result of one `writeAudioFrame` call: HRESULT, the `nb_samples`
value written into the reusable audio frame, the divisor used, and the
effect trace. -/
structure AudioWriteOut where
  ret : Int
  numSamples : Int
  divisor : Int
  effects : List AEffect
deriving DecidableEq, Repr

/-- `Session::writeAudioFrame(pData, length, sampleTime)` (lines
209-244), after the rendezvous on `isFormatContextCreated`:
`numSamples = length / av_samples_get_buffer_size(NULL, channels, 1,
sample_fmt, audioBlockAlign)` — the division executes unconditionally,
with C truncating semantics (`Int.tdiv`) — then the frame fill, encode
and conditional locked write, all with ignored results, and `return
S_OK`.  `sampleTime` is never read. -/
def writeAudioFrame (cfg : AudioCfg) (env : AudioWriteEnv)
    (length : Int) : AudioWriteOut :=
  let divisor :=
    av_samples_get_buffer_size cfg.channels 1 cfg.sample_fmt
      cfg.audioBlockAlign
  let numSamples := Int.tdiv length divisor
  let eff := [AEffect.divide length divisor, AEffect.fillAudioFrame,
              AEffect.encodeAudio]
  let eff := if env.gotPacket then eff ++ [AEffect.writePacket] else eff
  ⟨S_OK, numSamples, divisor, eff ++ [AEffect.freePacket]⟩

/-! ## Claims -/

/-- C1: if `finishVideo()` and `finishAudio()` are each called exactly
once — in either order; since both bodies (including the `endSession`
they call) run under the single `mxFinish` lock, a concurrent execution
equals one of the two sequential orders — then the teardown sequence is
executed exactly once, and it is executed by the second finish call, the
one that observes both `isVideoFinished` and `isAudioFinished` true; the
first call executes no teardown step. -/
theorem C1_finalize_exactly_once (order : Bool) :
    ((if order then finishVideo capturingState
      else finishAudio capturingState).2 = [] ∧
     (if order then finishAudio (finishVideo capturingState).1
      else finishVideo (finishAudio capturingState).1).2 = teardownSeq ∧
     (if order then finishAudio (finishVideo capturingState).1
      else finishVideo (finishAudio capturingState).1).1.isSessionFinished
        = true ∧
     (if order then finishAudio (finishVideo capturingState).1
      else finishVideo (finishAudio capturingState).1).1.isCapturing
        = false) := by
  cases order <;> decide

/-- C9: `endSession` is not idempotent: in every state where
`isVideoFinished` and `isAudioFinished` are both already true — in
particular after teardown completed and `isSessionFinished` is set — a
further `finishVideo()`, `finishAudio()` or `endSession()` call executes
the entire teardown sequence again; no check of `isSessionFinished`
guards it. -/
theorem C9_teardown_runs_again (s : FinishState)
    (hv : s.isVideoFinished = true) (ha : s.isAudioFinished = true) :
    (endSession s).2 = teardownSeq ∧ (finishVideo s).2 = teardownSeq ∧
    (finishAudio s).2 = teardownSeq := by
  refine ⟨?_, ?_, ?_⟩ <;> simp [endSession, finishVideo, finishAudio, hv, ha]

/-- Witness for C9 at the state reached right after a completed
teardown (both streams finished, not capturing, session finished): all
three calls run the whole teardown sequence again. -/
theorem C9_witness :
    (endSession ⟨true, true, false, true⟩).2 = teardownSeq ∧
    (finishVideo ⟨true, true, false, true⟩).2 = teardownSeq ∧
    (finishAudio ⟨true, true, false, true⟩).2 = teardownSeq :=
  C9_teardown_runs_again ⟨true, true, false, true⟩ rfl rfl

/-- C3: a `writeVideoFrame` call whose `length` differs from the buffer
size computed for the declared input pixel format and frame dimensions
returns `E_FAIL` with an empty effect trace (nothing allocated, encoded
or written — the frame is dropped) and leaves the reusable frame state
unchanged, and therefore a subsequent call (with any environment and
arguments, in particular a valid length) returns exactly what it would
have returned had the bad call never happened. -/
theorem C3_bad_length_dropped_cleanly (cfg : VideoCfg)
    (st : VideoFrameState) (env env2 : VideoWriteEnv)
    (length sampleTime : Int) (h : length ≠ env.imageBufferSize) :
    writeVideoFrame cfg st env length sampleTime = ⟨E_FAIL, st, []⟩ ∧
    ∀ length2 sampleTime2,
      writeVideoFrame cfg (writeVideoFrame cfg st env length sampleTime).st
          env2 length2 sampleTime2 =
        writeVideoFrame cfg st env2 length2 sampleTime2 := by
  have h1 : writeVideoFrame cfg st env length sampleTime = ⟨E_FAIL, st, []⟩ := by
    simp [writeVideoFrame, h]
  exact ⟨h1, fun length2 sampleTime2 => by rw [h1]⟩

/-- Witness for C3: a session declared with NV12 input whose expected
buffer size is 10 rejects a 5-byte submission with `E_FAIL`, no effects
and unchanged frame state. -/
theorem C3_witness :
    (5 : Int) ≠ (10 : Int) ∧
    writeVideoFrame ⟨.AV_PIX_FMT_NV12, .AV_PIX_FMT_YUV420P, ⟨1, 30⟩⟩
        ⟨none⟩ ⟨10, 0, 0, true, 0⟩ 5 0 = ⟨E_FAIL, ⟨none⟩, []⟩ :=
  ⟨by decide,
   (C3_bad_length_dropped_cleanly ⟨.AV_PIX_FMT_NV12, .AV_PIX_FMT_YUV420P, ⟨1, 30⟩⟩
      ⟨none⟩ ⟨10, 0, 0, true, 0⟩ ⟨10, 0, 0, true, 0⟩ 5 0 (by decide)).1⟩

/-- C5: evaluation of `writeVideoFrame` at a failing input.  With a
valid length and a recognized input pixel format but a failing
`av_image_fill_arrays` (negative return, e.g. because the session was
configured with an invalid output pixel format), the call allocates the
`pDataTarget` scratch buffer and returns `E_FAIL` without ever freeing
it: the `RET_IF_FAILED` macro at the fill step returns before the
`delete[]`, so the buffer is NOT freed on this exit path, contrary to
the claim that it is freed on every exit path. -/
theorem C5_fill_failure_leaks_buffer :
    (writeVideoFrame ⟨.AV_PIX_FMT_NV12, .AV_PIX_FMT_YUV420P, ⟨1, 30⟩⟩
        ⟨none⟩ ⟨100, -22, 0, true, 0⟩ 100 0).ret = E_FAIL ∧
    VEffect.allocTarget ∈
      (writeVideoFrame ⟨.AV_PIX_FMT_NV12, .AV_PIX_FMT_YUV420P, ⟨1, 30⟩⟩
        ⟨none⟩ ⟨100, -22, 0, true, 0⟩ 100 0).effects ∧
    VEffect.freeTarget ∉
      (writeVideoFrame ⟨.AV_PIX_FMT_NV12, .AV_PIX_FMT_YUV420P, ⟨1, 30⟩⟩
        ⟨none⟩ ⟨100, -22, 0, true, 0⟩ 100 0).effects := by
  decide

/-- C10: once the per-frame validation steps pass (matching length,
recognized input pixel format, successful frame fill), `writeVideoFrame`
returns `S_OK` regardless of the encoder return value, of whether a
packet was produced, and of the `av_interleaved_write_frame` result; and
`writeAudioFrame` returns `S_OK` unconditionally — encode and
container-write failures are never reported to the caller. -/
theorem C10_always_sok_after_validation (cfg : VideoCfg)
    (st : VideoFrameState) (env : VideoWriteEnv) (length sampleTime : Int)
    (acfg : AudioCfg) (aenv : AudioWriteEnv) (alen : Int)
    (hlen : length = env.imageBufferSize)
    (hfmt : recognizedInputFormat cfg.inputPixelFormat = true)
    (hfill : 0 ≤ env.fillArraysResult) :
    (writeVideoFrame cfg st env length sampleTime).ret = S_OK ∧
    (writeAudioFrame acfg aenv alen).ret = S_OK := by
  constructor
  · cases hif : cfg.inputPixelFormat <;>
      simp_all [writeVideoFrame, writeVideoFrameEncode,
        recognizedInputFormat, not_lt.mpr hfill]
  · simp [writeAudioFrame]

/-- Witness for C10: a valid ARGB submission with a failing encoder
(return -1), a produced packet and a failing interleaved write
(return -5) still yields `S_OK`, as does an audio submission with every
external call failing. -/
theorem C10_witness :
    (writeVideoFrame ⟨.AV_PIX_FMT_ARGB, .AV_PIX_FMT_YUV420P, ⟨1, 30⟩⟩
        ⟨none⟩ ⟨100, 0, -1, true, -5⟩ 100 0).ret = S_OK ∧
    (writeAudioFrame ⟨2, .AV_SAMPLE_FMT_S16, 4⟩ ⟨-1, -1, true, -5⟩ 64).ret
      = S_OK :=
  C10_always_sok_after_validation ⟨.AV_PIX_FMT_ARGB, .AV_PIX_FMT_YUV420P, ⟨1, 30⟩⟩
    ⟨none⟩ ⟨100, 0, -1, true, -5⟩ 100 0 ⟨2, .AV_SAMPLE_FMT_S16, 4⟩
    ⟨-1, -1, true, -5⟩ 64 rfl (by decide) (by decide)

/-- C4: evaluation of `writeAudioFrame` at a failing configuration.
There is NO guard on the sample-count division: with an audio context
whose sample format is unknown (`AV_SAMPLE_FMT_NONE`), the divisor
`av_samples_get_buffer_size(NULL, 2, 1, AV_SAMPLE_FMT_NONE, 1)` is the
error code `AVERROR(EINVAL) = -22`, the division executes anyway, and
for `length = 220` the frame is given the nonsensical sample count
`-10` while the call still returns `S_OK`. -/
theorem C4_division_executes_unguarded :
    (writeAudioFrame ⟨2, .AV_SAMPLE_FMT_NONE, 1⟩ ⟨0, 0, false, 0⟩ 220).divisor
      = -22 ∧
    (writeAudioFrame ⟨2, .AV_SAMPLE_FMT_NONE, 1⟩ ⟨0, 0, false, 0⟩ 220).divisor
      < 0 ∧
    AEffect.divide 220 (-22) ∈
      (writeAudioFrame ⟨2, .AV_SAMPLE_FMT_NONE, 1⟩ ⟨0, 0, false, 0⟩ 220).effects ∧
    (writeAudioFrame ⟨2, .AV_SAMPLE_FMT_NONE, 1⟩ ⟨0, 0, false, 0⟩ 220).numSamples
      = -10 ∧
    (writeAudioFrame ⟨2, .AV_SAMPLE_FMT_NONE, 1⟩ ⟨0, 0, false, 0⟩ 220).ret
      = S_OK := by
  decide

/-- C6: evaluation of `createAudioContext` at failing environments.
When the codec lookup fails and the unchecked `avcodec_alloc_context3`
of a null codec still yields a context, the call nevertheless returns
`S_OK` and sets `isAudioContextCreated`; when the context allocation
itself returns null, the unchecked pointer is dereferenced by the field
writes (undefined behaviour, no failure result reaches the caller);
only the frame-allocation failure is reported with the flag unset, as
the claim describes for all three cases. -/
theorem C6_lookup_and_alloc_unchecked :
    createAudioContext ⟨false, true, true⟩
      = ⟨.returned S_OK, true⟩ ∧
    createAudioContext ⟨true, false, true⟩
      = ⟨.nullDeref, false⟩ ∧
    createAudioContext ⟨true, true, false⟩
      = ⟨.returned E_FAIL, false⟩ := by
  decide

/-- C7 counterexample: for the declared frame rate 30/1 the frame
interval is 1/30 (numerator 1, denominator 30), so the claim asserts a
time base with numerator 30 and denominator 1; but a successful
`createVideoContext` sets `time_base = av_make_q(fps_den, fps_num) =
av_make_q(1, 30)`, which is not the claimed pair. -/
theorem C7_cex :
    (createVideoContext ⟨true, true, true⟩ 30 1).ret = S_OK ∧
    (createVideoContext ⟨true, true, true⟩ 30 1).time_base
      = some (av_make_q 1 30) ∧
    (createVideoContext ⟨true, true, true⟩ 30 1).time_base
      ≠ some (av_make_q 30 1) := by
  decide

/-- C7 amended: after `createVideoContext(width, height,
inputPixelFormat, fps_num, fps_den, outputPixelFormat)` succeeds, the
video codec context time base equals `av_make_q(fps_den, fps_num)` — the
frame interval of the declared rate `fps_num/fps_den`, i.e. its
numerator is the NUMERATOR of the frame interval (`fps_den`) and its
denominator the DENOMINATOR of the frame interval (`fps_num`) — and a
successful `createFormatContext` copies exactly this time base onto the
video output stream descriptor. -/
theorem C7_time_base_is_frame_interval (env : VideoSetupEnv)
    (fps_num fps_den : Int) (fenv : FormatEnv) (sr : Int)
    (h : (createVideoContext env fps_num fps_den).ret = S_OK)
    (hf : fmtAllOk fenv = true) :
    (createVideoContext env fps_num fps_den).time_base
      = some (av_make_q fps_den fps_num) ∧
    (createFormatContext fenv (av_make_q fps_den fps_num) sr).videoStreamTimeBase
      = some (av_make_q fps_den fps_num) := by
  constructor
  · rcases env with ⟨c, x, f⟩
    cases c <;> cases x <;> cases f <;>
      simp_all [createVideoContext, E_FAIL, S_OK]
  · simp only [fmtAllOk, Bool.and_eq_true] at hf
    simp [createFormatContext, hf.1.1.1.1.1.1.1.1.1, hf.1.1.1.1.1.1.1.1.2,
      hf.1.1.1.1.1.1.1.2, hf.1.1.1.1.1.1.2, hf.1.1.1.1.1.2]

/-- Witness for C7 at frame rate 30000/1001 with every setup call
succeeding: the codec context and the video stream descriptor both carry
time base 1001/30000. -/
theorem C7_witness :
    (createVideoContext ⟨true, true, true⟩ 30000 1001).time_base
      = some (av_make_q 1001 30000) ∧
    (createFormatContext
        ⟨true, true, true, true, true, true, true, true, true, true, true⟩
        (av_make_q 1001 30000) 48000).videoStreamTimeBase
      = some (av_make_q 1001 30000) :=
  C7_time_base_is_frame_interval ⟨true, true, true⟩ 30000 1001
    ⟨true, true, true, true, true, true, true, true, true, true, true⟩
    48000 (by decide) (by decide)

/-- The property C2 asserts of the control-flow core of
`createFormatContext`: each flag implies every fallible step succeeded;
all steps succeeding yields `S_OK` with both flags; any failure yields
`E_FAIL` with both flags clear; and every attempted step has all
strictly earlier steps successful (so nothing past the first failure is
attempted). -/
def fmtCoreClaim (env : FormatEnv) : Prop :=
  (((createFormatContextCore env).2.1 = true ∨
      (createFormatContextCore env).2.2.1 = true) → fmtAllOk env = true) ∧
  (fmtAllOk env = true →
    (createFormatContextCore env).1 = S_OK ∧
    (createFormatContextCore env).2.1 = true ∧
    (createFormatContextCore env).2.2.1 = true) ∧
  (fmtAllOk env = false →
    (createFormatContextCore env).1 = E_FAIL ∧
    (createFormatContextCore env).2.1 = false ∧
    (createFormatContextCore env).2.2.1 = false) ∧
  (∀ st ∈ (createFormatContextCore env).2.2.2,
    ∀ st' ∈ allFmtSteps, fmtStepIndex st' < fmtStepIndex st →
      fmtStepOk env st' = true)

/-- Exhaustive check of `fmtCoreClaim` over all outcomes of the eleven
external calls. -/
theorem fmtCoreClaim_holds :
    ∀ g ao fn nv na gh ov oa io pb wh : Bool,
      fmtCoreClaim ⟨g, ao, fn, nv, na, gh, ov, oa, io, pb, wh⟩ := by
  unfold fmtCoreClaim
  decide

/-- C2: for every execution of `createFormatContext`, the flags
`isCapturing` and `isFormatContextCreated` become true only if every
setup step up to and including the container header write succeeded (in
which case the call returns `S_OK` with both flags set); if any step
fails, the call returns `E_FAIL`, neither flag is set, and no setup step
beyond the first failing one is performed: every step in the performed
trace has all strictly earlier steps successful. -/
theorem C2_flags_only_after_header (env : FormatEnv) (vtb : AVRational)
    (sr : Int) :
    (((createFormatContext env vtb sr).isCapturing = true ∨
        (createFormatContext env vtb sr).isFormatContextCreated = true) →
      fmtAllOk env = true) ∧
    (fmtAllOk env = true →
      (createFormatContext env vtb sr).ret = S_OK ∧
      (createFormatContext env vtb sr).isCapturing = true ∧
      (createFormatContext env vtb sr).isFormatContextCreated = true) ∧
    (fmtAllOk env = false →
      (createFormatContext env vtb sr).ret = E_FAIL ∧
      (createFormatContext env vtb sr).isCapturing = false ∧
      (createFormatContext env vtb sr).isFormatContextCreated = false) ∧
    (∀ st ∈ (createFormatContext env vtb sr).performed,
      ∀ st' ∈ allFmtSteps, fmtStepIndex st' < fmtStepIndex st →
        fmtStepOk env st' = true) := by
  have h : fmtCoreClaim env := by
    rcases env with ⟨g, ao, fn, nv, na, gh, ov, oa, io, pb, wh⟩
    exact fmtCoreClaim_holds g ao fn nv na gh ov oa io pb wh
  exact h

/-- Witness for C2 at an environment where opening the video codec
fails: the call returns `E_FAIL` with both flags clear, and at an
all-successful environment: `S_OK` with both flags set. -/
theorem C2_witness :
    ((createFormatContext
        ⟨true, true, true, true, true, true, false, true, true, true, true⟩
        ⟨1, 30⟩ 48000).ret = E_FAIL ∧
     (createFormatContext
        ⟨true, true, true, true, true, true, false, true, true, true, true⟩
        ⟨1, 30⟩ 48000).isCapturing = false ∧
     (createFormatContext
        ⟨true, true, true, true, true, true, false, true, true, true, true⟩
        ⟨1, 30⟩ 48000).isFormatContextCreated = false) ∧
    ((createFormatContext
        ⟨true, true, true, true, true, true, true, true, true, true, true⟩
        ⟨1, 30⟩ 48000).ret = S_OK ∧
     (createFormatContext
        ⟨true, true, true, true, true, true, true, true, true, true, true⟩
        ⟨1, 30⟩ 48000).isCapturing = true ∧
     (createFormatContext
        ⟨true, true, true, true, true, true, true, true, true, true, true⟩
        ⟨1, 30⟩ 48000).isFormatContextCreated = true) :=
  ⟨(C2_flags_only_after_header
      ⟨true, true, true, true, true, true, false, true, true, true, true⟩
      ⟨1, 30⟩ 48000).2.2.1 (by decide),
   (C2_flags_only_after_header
      ⟨true, true, true, true, true, true, true, true, true, true, true⟩
      ⟨1, 30⟩ 48000).2.1 (by decide)⟩

/-- The floor-based nearest rounding used by the rescaler stays within
half a divisor of the exact product: for positive `c`,
`2 * |c * ((m + c / 2) / c) - m| ≤ c`. -/
theorem half_round_bound (m c : Int) (hc : 0 < c) :
    2 * |c * ((m + c / 2) / c) - m| ≤ c := by
  have h1 : c * ((m + c / 2) / c) + (m + c / 2) % c = m + c / 2 :=
    Int.ediv_add_emod (m + c / 2) c
  have h2 : 0 ≤ (m + c / 2) % c := Int.emod_nonneg _ (by omega)
  have h3 : (m + c / 2) % c < c := Int.emod_lt_of_pos _ hc
  have h4 : 2 * (c / 2) + c % 2 = c := Int.ediv_add_emod c 2
  have h5 : 0 ≤ c % 2 := Int.emod_nonneg _ (by omega)
  have h6 : c % 2 < 2 := Int.emod_lt_of_pos _ (by omega)
  rcases abs_cases (c * ((m + c / 2) / c) - m) with ⟨he, _⟩ | ⟨he, _⟩ <;>
    rw [he] <;> linarith

/-- `av_rescale_rnd_near a b c` approximates the exact rational
`a * b / c` within half a unit: `2 * |c * result - a * b| ≤ c` for
positive `c`. -/
theorem av_rescale_rnd_near_bound (a b c : Int) (hc : 0 < c) :
    2 * |c * av_rescale_rnd_near a b c - a * b| ≤ c := by
  unfold av_rescale_rnd_near
  split
  · rw [show c * -((-a * b + c / 2) / c) - a * b
        = -(c * ((-a * b + c / 2) / c) - -a * b) by ring, abs_neg]
    exact half_round_bound (-a * b) c hc
  · exact half_round_bound (a * b) c hc

/-- C8 counterexample: at the representative frame rate 24/1 (video time
base 1/24) the tick timestamp `t = 100000` (10 milliseconds) rescales to
`0` video units, and rescaling back yields `0`, which is `100000` ticks
away from the original — not within ±1 tick-unit. -/
theorem C8_cex :
    av_rescale_q 100000 MF_TIME_BASE ⟨1, 24⟩ = 0 ∧
    av_rescale_q (av_rescale_q 100000 MF_TIME_BASE ⟨1, 24⟩) ⟨1, 24⟩
      MF_TIME_BASE = 0 ∧
    ¬ |av_rescale_q (av_rescale_q 100000 MF_TIME_BASE ⟨1, 24⟩) ⟨1, 24⟩
        MF_TIME_BASE - 100000| ≤ 1 := by
  decide

/-- C8 amended: rescaling a 100-nanosecond-tick timestamp `t` (time base
1/10000000) to a video time base `n/d` with the exact-rational,
round-to-nearest-ties-away semantics of `av_rescale_q`, and rescaling
the result back to the tick unit, yields a value within half a
destination unit — not ±1 tick: the round trip `u` satisfies
`2 * d * |u - t| ≤ d + n * 10000000`, i.e. the error is at most about
half the frame interval expressed in ticks (≤ 166833 ticks for frame
rate 30000/1001, ≤ 83333 for 60/1, ≤ 208333 for 24/1). -/
theorem C8_roundtrip_within_half_dest_unit (t n d : Int)
    (hn : 0 < n) (hd : 0 < d) :
    2 * d * |av_rescale_q (av_rescale_q t MF_TIME_BASE ⟨n, d⟩) ⟨n, d⟩
        MF_TIME_BASE - t| ≤ d + n * 10000000 := by
  set r := av_rescale_q t MF_TIME_BASE ⟨n, d⟩ with hr
  set u := av_rescale_q r ⟨n, d⟩ MF_TIME_BASE with hu
  have e1 : r = av_rescale_rnd_near t (1 * d) (n * 10000000) := rfl
  have e2 : u = av_rescale_rnd_near r (n * 10000000) (1 * d) := rfl
  have hb1 := av_rescale_rnd_near_bound t (1 * d) (n * 10000000)
    (by positivity)
  have hb2 := av_rescale_rnd_near_bound r (n * 10000000) (1 * d)
    (by positivity)
  rw [← e1] at hb1
  rw [← e2] at hb2
  have h1 : 2 * |r * (n * 10000000) - d * t| ≤ n * 10000000 := by
    rw [show r * (n * 10000000) - d * t
        = n * 10000000 * r - t * (1 * d) by ring]
    exact hb1
  have h2 : 2 * |d * u - r * (n * 10000000)| ≤ d := by
    rw [show d * u - r * (n * 10000000)
        = 1 * d * u - r * (n * 10000000) by ring]
    calc 2 * |1 * d * u - r * (n * 10000000)| ≤ 1 * d := hb2
      _ = d := one_mul d
  have habs : |d * u - d * t| ≤
      |d * u - r * (n * 10000000)| + |r * (n * 10000000) - d * t| :=
    abs_sub_le _ _ _
  have hmul : |d * u - d * t| = d * |u - t| := by
    rw [← mul_sub, abs_mul, abs_of_pos hd]
  have : 2 * (d * |u - t|) ≤ d + n * 10000000 := by
    rw [← hmul]; linarith
  linarith

/-- Witness for C8 at frame rate 30000/1001 (video time base
1001/30000) and tick timestamp 12345678: the round-trip error obeys the
half-destination-unit bound. -/
theorem C8_witness :
    2 * 30000 * |av_rescale_q (av_rescale_q 12345678 MF_TIME_BASE
        ⟨1001, 30000⟩) ⟨1001, 30000⟩ MF_TIME_BASE - 12345678|
      ≤ 30000 + 1001 * 10000000 :=
  C8_roundtrip_within_half_dest_unit 12345678 1001 30000
    (by decide) (by decide)

end EVE
